import Mathlib

/-!
Verification of the PN532 NFC driver protocol core (`src/pn532/mod.rs`).

The Rust code is shallow-embedded: `u8` values become `Nat` with explicit
`% 256` wherever the source relies on wrapping arithmetic, byte buffers
become `List Nat`, fallible code returns an explicit result type, and a
Rust `panic!` (including out-of-bounds indexing, failed `assert!`,
`copy_from_slice` length mismatch and `Option::unwrap` on `None`) is a
distinguished result constructor.  The transport trait methods
(`wait_ready`, `read_data`) are abstracted as explicit inputs: a `Device`
record carries the two `wait_ready` outcomes and the bytes the transport
returns for the ACK read and the response-frame read of one
`call_function` exchange.

`call_function` is given in full (frame write, then dispatch), and
`write_frame_total_panic` shows the frame construction panics on every
input, so the full composition never reaches the transport.  The
dispatch stage of `call_function` (everything after the frame write,
lines 337-356) and the command-library response handlers are therefore
also embedded as their own functions of the transport inputs and the
dispatch outcome, exactly as the source lines read them; the properties
of those stages are stated on these stage functions.
-/

/-- Result of running a fragment of the driver: a normal value, an
`Err(Box<dyn Error>)` carrying the error message, or a `panic!`
(process abort, including out-of-bounds indexing and `unwrap` on `None`). -/
inductive RResult (α : Type) where
  | ok : α → RResult α
  | error : String → RResult α
  | panic : RResult α
  deriving DecidableEq

-- Constants from `src/pn532/mod.rs` lines 12-18 and 110-113.

def PREAMBLE : Nat := 0x00

def STARTCODE1 : Nat := 0x00

def STARTCODE2 : Nat := 0xFF

def POSTAMBLE : Nat := 0x00

def HOSTTOPN532 : Nat := 0xD4

def PN532TOHOST : Nat := 0xD5

def COMMAND_GETFIRMWAREVERSION : Nat := 0x02

def COMMAND_READGPIO : Nat := 0x0C

def COMMAND_WRITEGPIO : Nat := 0x0E

def COMMAND_INLISTPASSIVETARGET : Nat := 0x4A

def COMMAND_INDATAEXCHANGE : Nat := 0x40

def MIFARE_ISO14443A : Nat := 0x00

def MIFARE_CMD_READ : Nat := 0x30

def GPIO_VALIDATIONBIT : Nat := 0x80

/-- The fixed 6-byte ACK constant (line 112). -/
def ACK : List Nat := [0x00, 0x00, 0xFF, 0x00, 0xFF, 0x00]

/-- Rust slice-assignment `frame[a..b].copy_from_slice(data)` once the
range and length checks have passed: the bytes at positions `a..b` are
replaced by `data`. -/
def listSplice (frame : List Nat) (a b : Nat) (data : List Nat) : List Nat :=
  frame.take a ++ data ++ frame.drop b

/-- Lines 247-275, `write_frame`: build the request frame around `data`.
The source allocates `vec![0u8; (len+7) as usize]` (the size expression
is evaluated in `u8`, hence the `% 256`), writes the preamble, start
code, length and length checksum, then copies the payload with
`frame[5..(len as usize - 2)].copy_from_slice(data)` and stores the
checksum and postamble at `frame[len-2]` and `frame[len-1]`.  Every
bounds or length violation of those operations is a panic, checked here
in source order: the `assert!`, the element writes `frame[0]..frame[4]`,
the slice range `5..len-2`, the `copy_from_slice` length equality, and
the trailing element writes. -/
def write_frame (data : List Nat) : RResult (List Nat) :=
  let len := data.length
  let flen := (len + 7) % 256
  if ¬ (1 < len ∧ len < 255) then .panic
  else if flen < 5 then .panic
  else if 5 > len - 2 ∨ len - 2 > flen then .panic
  else if len - 2 - 5 ≠ data.length then .panic
  else if flen ≤ len - 2 ∨ flen ≤ len - 1 then .panic
  else
    let frame := ((((List.replicate flen 0).set 0 PREAMBLE).set 1
        STARTCODE1).set 2 STARTCODE2).set 3 (len % 256) |>.set 4 ((256 - len % 256) % 256)
    let checksum := ((PREAMBLE + STARTCODE1 + STARTCODE2) % 256 + data.sum) % 256
    let frame := listSplice frame 5 (len - 2) data
    .ok ((frame.set (len - 2) ((255 - checksum) % 256)).set (len - 1) POSTAMBLE)

/-- Helper documenting the severity of the `write_frame` slicing slip:
the destination slice `frame[5..len-2]` has length `len - 7` (or is an
invalid range when `len < 7`) while the payload has length `len`, so the
function panics on every input, in-range or not. -/
theorem write_frame_total_panic (data : List Nat) : write_frame data = .panic := by
  simp only [write_frame]
  split_ifs with h1 h2 h3 h4 h5
  any_goals rfl
  exfalso
  push_neg at h3 h4
  omega

/-- C1: the claim asserts that `write_frame` followed by `read_frame`
round-trips every payload with `1 < len < 255`.  The code slip
`frame[5..len-2]` (a mistranslation of Python's `frame[5:-2]`) makes
`write_frame` panic on every such payload, evaluated here at the
2-byte firmware-version command payload and at a 16-byte payload
(covering both the invalid-range and the length-mismatch panic paths),
so the produced bytes never exist and the round-trip fails. -/
theorem write_frame_panics_on_valid_payloads :
    write_frame [HOSTTOPN532, COMMAND_GETFIRMWAREVERSION] = .panic
    ∧ write_frame (List.replicate 16 1) = .panic := by
  constructor
  · decide
  · decide

/-- Lines 288-294, the zero-swallowing loop at the head of `read_frame`:
walk the buffer from `offset`, skipping `0x00` bytes.  The loop body
increments `offset` and returns the preamble `RuntimeError` when the end
is reached; the loop condition itself indexes `response[offset]`, which
is out of bounds (a panic) only on the very first entry, when the buffer
is empty.  The walk is modelled structurally on the suffix starting at
`offset`, returning the index of the first non-zero byte. -/
def swallowZeros : List Nat → Nat → RResult Nat
  | [], _ => .panic
  | x :: rest, off =>
    if x = 0x00 then
      match rest with
      | [] => .error "Response frame preamble does not contain 0x00FF!"
      | y :: rest2 => swallowZeros (y :: rest2) (off + 1)
    else .ok off

/-- Lines 281-314, `read_frame`: decode a response buffer (the bytes
`read_data` returned).  After the zero-swallowing loop the byte at the
returned offset must be `0xFF`; the source then increments the offset,
reads the length byte, indexes the length checksum at `offset + 1`,
sums the `frame_len + 1` payload-plus-checksum bytes starting at
`offset + 2`, and returns the `frame_len`-byte payload slice.  Each
out-of-bounds index or slice is a panic, checked in source order.
Additions on `u8` are modelled with wrapping (`% 256`). -/
def read_frame (response : List Nat) : RResult (List Nat) :=
  match swallowZeros response 0 with
  | .panic => .panic
  | .error e => .error e
  | .ok off =>
    if response.getD off 0 ≠ 0xFF then
      .error "Response frame preamble does not contain 0x00FF!"
    else if response.length ≤ off + 1 then
      .error "Response contains no data!"
    else
      let frame_len := response.getD (off + 1) 0
      if response.length ≤ off + 2 then .panic
      else if (frame_len + response.getD (off + 2) 0) % 256 ≠ 0 then
        .error "Response length checksum did not match length!"
      else if response.length < off + 3 + frame_len + 1 then .panic
      else
        let checksum := (((response.drop (off + 3)).take (frame_len + 1)).sum) % 256
        if checksum ≠ 0 then
          .error ("Response checksum did not match expected value: " ++ toString checksum)
        else .ok ((response.drop (off + 3)).take frame_len)

/-- C9 counterexample: the claim lists "a buffer that ends immediately
after the 0x00...0xFF start marker" among the inputs on which
`read_frame`'s indexing goes out of bounds and panics; in fact on
`[0x00, 0xFF]` the source's explicit bounds check fires first and it
returns the "Response contains no data!" decode error, not a panic. -/
theorem read_frame_start_marker_no_panic :
    read_frame [0x00, 0xFF] = .error "Response contains no data!"
    ∧ read_frame [0x00, 0xFF] ≠ RResult.panic := by
  constructor
  · rfl
  · decide

/-- C9 (amended): `read_frame` is not total over received byte buffers:
the empty buffer panics (the loop condition indexes `response[0]` out of
bounds), a buffer that ends immediately after the length byte panics
(the length-checksum read at `offset + 1` is out of bounds), and a
length byte `L` whose checksum summation range `offset+2 .. offset+2+L+1`
extends past the buffer's end panics; a buffer ending immediately after
the start marker instead returns a decode error. -/
theorem read_frame_partial_buffers_panic :
    read_frame [] = RResult.panic
    ∧ read_frame [0x00, 0xFF, 0x03] = RResult.panic
    ∧ read_frame [0x00, 0xFF, 0x05, 0xFB, 0x01] = RResult.panic := by
  refine ⟨rfl, rfl, rfl⟩

/-- Lines 178-182: the device-reported error value. -/
structure PN532Error where
  code : Nat
  msg : String
  deriving DecidableEq

/-- Lines 184-223, `PN532Error::error`: map a device status byte to the
named error value.  The match lists 28 known status codes (27 distinct
messages, `MIFARE_FRAMING` appearing twice); the wildcard arm is
`panic!("Error State: Unexpected PN532 Error Code: ...")`, modelled as
`RResult.panic`. -/
def PN532Error.error (code : Nat) : RResult PN532Error :=
  match code with
  | 0x01 => .ok ⟨code, "PN532 ERROR TIMEOUT"⟩
  | 0x02 => .ok ⟨code, "PN532 ERROR CRC"⟩
  | 0x03 => .ok ⟨code, "PN532 ERROR PARITY"⟩
  | 0x04 => .ok ⟨code, "PN532 ERROR COLLISION_BITCOUNT"⟩
  | 0x05 => .ok ⟨code, "PN532 ERROR MIFARE_FRAMING"⟩
  | 0x06 => .ok ⟨code, "PN532 ERROR MIFARE_FRAMING"⟩
  | 0x07 => .ok ⟨code, "PN532 ERROR NOBUFS"⟩
  | 0x09 => .ok ⟨code, "PN532 ERROR RFNOBUFS"⟩
  | 0x0a => .ok ⟨code, "PN532 ERROR ACTIVE_TOOSLOW"⟩
  | 0x0b => .ok ⟨code, "PN532 ERROR RFPROTO"⟩
  | 0x0d => .ok ⟨code, "PN532 ERROR TOOHOT"⟩
  | 0x0e => .ok ⟨code, "PN532 ERROR INTERNAL_NOBUFS"⟩
  | 0x10 => .ok ⟨code, "PN532 ERROR INVAL"⟩
  | 0x12 => .ok ⟨code, "PN532 ERROR DEP_INVALID_COMMAND"⟩
  | 0x13 => .ok ⟨code, "PN532 ERROR DEP_BADDATA"⟩
  | 0x14 => .ok ⟨code, "PN532 ERROR MIFARE_AUTH"⟩
  | 0x18 => .ok ⟨code, "PN532 ERROR NOSECURE"⟩
  | 0x19 => .ok ⟨code, "PN532 ERROR I2CBUSY"⟩
  | 0x23 => .ok ⟨code, "PN532 ERROR UIDCHECKSUM"⟩
  | 0x25 => .ok ⟨code, "PN532 ERROR DEPSTATE"⟩
  | 0x26 => .ok ⟨code, "PN532 ERROR HCIINVAL"⟩
  | 0x27 => .ok ⟨code, "PN532 ERROR CONTEXT"⟩
  | 0x29 => .ok ⟨code, "PN532 ERROR RELEASED"⟩
  | 0x2a => .ok ⟨code, "PN532 ERROR CARDSWAPPED"⟩
  | 0x2b => .ok ⟨code, "PN532 ERROR NOCARD"⟩
  | 0x2c => .ok ⟨code, "PN532 ERROR MISMATCH"⟩
  | 0x2d => .ok ⟨code, "PN532 ERROR OVERCURRENT"⟩
  | 0x2e => .ok ⟨code, "PN532 ERROR NONAD"⟩
  | _ => .panic

/-- Lines 645-655, `check_response`: a `None` dispatch outcome is
`Ok(false)`; otherwise the first response byte must be `0x00`
(`Ok(true)`), and a non-zero byte is mapped through `PN532Error::error`
(whose construction panics on an unknown code). -/
def check_response (response : Option (List Nat)) : RResult Bool :=
  match response with
  | none => .ok false
  | some res =>
    if res.length ≤ 0 then .panic
    else if res.getD 0 0 ≠ 0x00 then
      match PN532Error.error (res.getD 0 0) with
      | .panic => .panic
      | .error e => .error e
      | .ok err => .error err.msg
    else .ok true

/-- C2: the claim requires every status byte outside the named set,
reached when a command response's first data byte is non-zero, to map to
a reportable and recoverable error value, never terminating the process.
The wildcard arm of `PN532Error::error` is a `panic!`, so the unknown
status byte `0x08` aborts the process, both directly and through
`check_response` on a response whose first data byte is `0x08`. -/
theorem pn532_unknown_code_panics :
    PN532Error.error 0x08 = RResult.panic
    ∧ check_response (some [0x08, 0xAA]) = RResult.panic := by
  refine ⟨rfl, rfl⟩

/-- Transport-level inputs consumed by one `call_function` exchange: the
outcomes of the two `wait_ready` calls and the bytes `read_data` returns
for the ACK read (`read_data(6)`) and for the response-frame read
(`read_data(response_length + 2 + 7)`). -/
structure Device where
  ready1 : Bool
  ready2 : Bool
  ackRead : List Nat
  frameRead : List Nat
  deriving DecidableEq

/-- Lines 347-356 of `call_function`: read and decode the response frame
and correlate it with the issued command.  The source checks
`response[0] == PN532TOHOST && response[1] == command + 1` — the `&&`
short-circuits, so `response[1]` is only indexed (and can only panic)
when the first byte matches — and on success returns `response[2..]`.
The `u8` addition `command + 1` wraps. -/
def call_function_read_response (dev : Device) (command : Nat) :
    RResult (Option (List Nat)) :=
  match read_frame dev.frameRead with
  | .panic => .panic
  | .error e => .error e
  | .ok response =>
    match response with
    | [] => .panic
    | b0 :: rest =>
      if b0 = PN532TOHOST then
        match rest with
        | [] => .panic
        | b1 :: rest2 =>
          if b1 = (command + 1) % 256 then .ok (some rest2)
          else .error "Received unexpected command response!"
      else .error "Received unexpected command response!"

/-- Lines 344-356 of `call_function`: the stage after ACK verification —
second ready-wait, then response read and echo check. -/
def dispatch_after_ack (dev : Device) (command : Nat) : RResult (Option (List Nat)) :=
  if dev.ready2 = false then .ok none
  else call_function_read_response dev command

/-- Lines 337-356 of `call_function`: the dispatch stage after the
request-frame write — first ready-wait (a timeout yields `Ok(None)`),
ACK verification against the fixed constant, then `dispatch_after_ack`.
`response_length` only sizes the transport read whose result is already
recorded in `dev.frameRead`. -/
def dispatch (dev : Device) (command : Nat) (response_length : Nat) :
    RResult (Option (List Nat)) :=
  if dev.ready1 = false then .ok none
  else if dev.ackRead ≠ ACK then
    .error "Did not receive expected ACK from PN532!"
  else dispatch_after_ack dev command

/-- Lines 322-357, `call_function` in full: build the frame payload
`[HOSTTOPN532, command & 0xFF] ++ params`, write the request frame (on a
write error, wake up and propagate; the frame construction itself panics
— see `write_frame`), then run the dispatch stage. -/
def call_function (dev : Device) (command : Nat) (response_length : Nat)
    (params : List Nat) : RResult (Option (List Nat)) :=
  let data := [HOSTTOPN532, command % 256] ++ params
  match write_frame data with
  | .panic => .panic
  | .error e => .error e
  | .ok _ => dispatch dev command response_length

/-- C5: with the first ready-wait succeeded, six bytes read in place of
the acknowledgement that differ from the fixed ACK constant
`0x00 0x00 0xFF 0x00 0xFF 0x00` in any way (in particular in any single
byte) make the dispatch fail with the missing-ACK error, and an exact
match lets the dispatch proceed to the post-ACK stage. -/
theorem dispatch_ack_gate (dev : Device) (command response_length : Nat)
    (hr : dev.ready1 = true) (hlen : dev.ackRead.length = 6) :
    (dev.ackRead ≠ ACK →
      dispatch dev command response_length =
        .error "Did not receive expected ACK from PN532!")
    ∧ (dev.ackRead = ACK →
      dispatch dev command response_length = dispatch_after_ack dev command) := by
  constructor
  · intro hne
    simp [dispatch, hr, hne]
  · intro heq
    simp [dispatch, hr, heq]

/-- C5 witness: a concrete device that is ready and answers the ACK read
with a sequence differing from the ACK constant in the last byte only is
rejected with the missing-ACK error. -/
theorem dispatch_ack_gate_witness :
    dispatch ⟨true, false, [0x00, 0x00, 0xFF, 0x00, 0xFF, 0x01], []⟩
        COMMAND_GETFIRMWAREVERSION 4 =
      .error "Did not receive expected ACK from PN532!" := by
  have h := dispatch_ack_gate ⟨true, false, [0x00, 0x00, 0xFF, 0x00, 0xFF, 0x01], []⟩
    COMMAND_GETFIRMWAREVERSION 4 rfl (by decide)
  exact h.1 (by decide)

/-- C6: once both waits succeed and the ACK matched, a successfully
decoded response frame whose first two payload bytes are not exactly
`(0xD5, command + 1)` fails the dispatch with the unexpected-command-
response error even though the frame and its checksums were valid, and
a matching echo returns the payload bytes from position 2 onward. -/
theorem dispatch_echo_check (dev : Device) (command response_length : Nat)
    (response : List Nat) (hr1 : dev.ready1 = true) (hack : dev.ackRead = ACK)
    (hr2 : dev.ready2 = true) (hdec : read_frame dev.frameRead = .ok response)
    (hlen : 2 ≤ response.length) :
    (¬ (response.getD 0 0 = PN532TOHOST ∧ response.getD 1 0 = (command + 1) % 256) →
      dispatch dev command response_length =
        .error "Received unexpected command response!")
    ∧ (response.getD 0 0 = PN532TOHOST ∧ response.getD 1 0 = (command + 1) % 256 →
      dispatch dev command response_length = .ok (some (response.drop 2))) := by
  match response, hlen with
  | b0 :: b1 :: rest, _ =>
    constructor
    · intro hne
      simp only [List.getD_cons_zero, List.getD_cons_succ] at hne
      simp only [dispatch, dispatch_after_ack, call_function_read_response, hr1, hack,
        hr2, hdec]
      by_cases h0 : b0 = PN532TOHOST
      · have h1 : ¬ b1 = (command + 1) % 256 := fun hb => hne ⟨h0, hb⟩
        simp [h0, h1]
      · simp [h0]
    · intro heq
      simp only [List.getD_cons_zero, List.getD_cons_succ] at heq
      simp only [dispatch, dispatch_after_ack, call_function_read_response, hr1, hack,
        hr2, hdec, heq.1, heq.2]
      simp [List.drop]

/-- C6 witness: a valid, checksum-correct response frame decoding to the
payload `[0xD5, 0x05]` answers the firmware-version command `0x02`
(whose echo must be `0x03`) and is rejected as an unexpected command
response. -/
theorem dispatch_echo_check_witness :
    dispatch ⟨true, true, ACK, [0x00, 0xFF, 0x02, 0xFE, 0xD5, 0x05, 0x26, 0x00]⟩
        COMMAND_GETFIRMWAREVERSION 4 =
      .error "Received unexpected command response!" := by
  have h := dispatch_echo_check
    ⟨true, true, ACK, [0x00, 0xFF, 0x02, 0xFE, 0xD5, 0x05, 0x26, 0x00]⟩
    COMMAND_GETFIRMWAREVERSION 4 [0xD5, 0x05] rfl rfl rfl (by decide) (by decide)
  exact h.1 (by decide)

/-- Lines 115-126, the ten named GPIO pins. -/
inductive PN532Gpio where
  | P30 | P31 | P32 | P33 | P34 | P35 | P71 | P72 | I0 | I1
  deriving DecidableEq

/-- Lines 129-136, `PN532Gpio::idx`: the port index of a pin within the
3-byte GPIO status vector. -/
def PN532Gpio.idx : PN532Gpio → Nat
  | .P30 | .P31 | .P32 | .P33 | .P34 | .P35 => 0
  | .P71 | .P72 => 1
  | .I0 | .I1 => 2

/-- Lines 142-151, `PN532Gpio::offset`: the bit offset of a pin within
its port byte. -/
def PN532Gpio.offset : PN532Gpio → Nat
  | .P30 | .I0 => 0
  | .P31 | .P71 | .I1 => 1
  | .P32 | .P72 => 2
  | .P33 => 3
  | .P34 => 4
  | .P35 => 5

/-- Lines 138-140, `PN532Gpio::get`: extract the pin's bit from its port
byte as `response >> offset & 1 == 1`. -/
def PN532Gpio.get (p : PN532Gpio) (response : Nat) : Bool :=
  (response >>> p.offset) &&& 1 == 1

/-- Lines 531-539 of `read_gpio`: handling of the dispatch outcome.  The
source calls `.unwrap()` on the `Option` returned by `call_function`
(line 531), so a `None` (timeout) outcome is a panic; with a response,
a named pin extracts its bit from `response[pin.idx()]` and the no-pin
query returns `response[..3]`. -/
def read_gpio_handle (response : Option (List Nat)) (pin : Option PN532Gpio) :
    RResult (Option Bool × Option (List Nat)) :=
  match response with
  | none => .panic
  | some res =>
    match pin with
    | some p =>
      if res.length ≤ p.idx then .panic
      else .ok (some (p.get (res.getD p.idx 0)), none)
    | none =>
      if res.length < 3 then .panic
      else .ok (none, some (res.take 3))

/-- Lines 525-540, `read_gpio` in full: a `READGPIO` call through the
dispatch stage followed by the unwrap-and-extract handling. -/
def read_gpio (dev : Device) (pin : Option PN532Gpio) :
    RResult (Option Bool × Option (List Nat)) :=
  match dispatch dev COMMAND_READGPIO 3 with
  | .panic => .panic
  | .error e => .error e
  | .ok o => read_gpio_handle o pin

/-- C3: the claim requires a ready-wait timeout to surface as the
explicit no-response outcome (`None`), never a panic, for `read_gpio` as
for `call_function`.  The dispatch stage does yield `Ok(None)` when the
first ready-wait fails, but `read_gpio` unwraps that `Option` (line 531)
and panics on it — for a single-pin query and for the all-pins query
alike — instead of surfacing the not-ready outcome. -/
theorem read_gpio_timeout_panics :
    dispatch ⟨false, false, [], []⟩ COMMAND_READGPIO 3 = .ok none
    ∧ read_gpio_handle none (some PN532Gpio.P30) = RResult.panic
    ∧ read_gpio_handle none none = RResult.panic
    ∧ read_gpio ⟨false, false, [], []⟩ none = RResult.panic := by
  refine ⟨rfl, rfl, rfl, rfl⟩

/-- Helper: the source's bit extraction `response >> offset & 1 == 1`
computes exactly the binary digit of weight `2 ^ offset`. -/
theorem PN532Gpio_get_eq (p : PN532Gpio) (b : Nat) :
    p.get b = decide (b / 2 ^ p.offset % 2 = 1) := by
  simp only [PN532Gpio.get, Nat.shiftRight_eq_div_pow, Nat.and_one_is_mod]
  by_cases h : b / 2 ^ p.offset % 2 = 1 <;> simp [h]

/-- C7: for every 3-byte GPIO status vector, reading a named single pin
returns the manually computed bit of the corresponding port byte at the
pin's documented (port-index, bit-offset) — with P30..P35 mapped to
port 0 at offsets 0..5, P71 to (1,1), P72 to (1,2), I0 to (2,0) and I1
to (2,1) — and reading with no pin returns the raw 3-byte vector
unprocessed. -/
theorem read_gpio_pin_mapping (res : List Nat) (p : PN532Gpio)
    (h3 : res.length = 3) :
    (PN532Gpio.P30.idx = 0 ∧ PN532Gpio.P30.offset = 0)
    ∧ (PN532Gpio.P31.idx = 0 ∧ PN532Gpio.P31.offset = 1)
    ∧ (PN532Gpio.P32.idx = 0 ∧ PN532Gpio.P32.offset = 2)
    ∧ (PN532Gpio.P33.idx = 0 ∧ PN532Gpio.P33.offset = 3)
    ∧ (PN532Gpio.P34.idx = 0 ∧ PN532Gpio.P34.offset = 4)
    ∧ (PN532Gpio.P35.idx = 0 ∧ PN532Gpio.P35.offset = 5)
    ∧ (PN532Gpio.P71.idx = 1 ∧ PN532Gpio.P71.offset = 1)
    ∧ (PN532Gpio.P72.idx = 1 ∧ PN532Gpio.P72.offset = 2)
    ∧ (PN532Gpio.I0.idx = 2 ∧ PN532Gpio.I0.offset = 0)
    ∧ (PN532Gpio.I1.idx = 2 ∧ PN532Gpio.I1.offset = 1)
    ∧ read_gpio_handle (some res) (some p) =
        .ok (some (decide ((res.getD p.idx 0) / 2 ^ p.offset % 2 = 1)), none)
    ∧ read_gpio_handle (some res) none = .ok (none, some res) := by
  refine ⟨⟨rfl, rfl⟩, ⟨rfl, rfl⟩, ⟨rfl, rfl⟩, ⟨rfl, rfl⟩, ⟨rfl, rfl⟩, ⟨rfl, rfl⟩,
    ⟨rfl, rfl⟩, ⟨rfl, rfl⟩, ⟨rfl, rfl⟩, ⟨rfl, rfl⟩, ?_, ?_⟩
  · have hidx : p.idx < res.length := by
      cases p <;> simp [PN532Gpio.idx, h3]
    simp [read_gpio_handle, Nat.not_le.mpr hidx, PN532Gpio_get_eq]
  · have : ¬ res.length < 3 := by omega
    simp [read_gpio_handle, this, List.take_of_length_le (le_of_eq h3)]

/-- C7 witness: on the status vector `[0x25, 0x06, 0x02]`, pin P35 (port
byte `0x25 = 0b100101`, bit 5) reads `true`, by the mapping theorem
applied at that vector. -/
theorem read_gpio_pin_mapping_witness :
    read_gpio_handle (some [0x25, 0x06, 0x02]) (some PN532Gpio.P35) =
      .ok (some true, none) := by
  have h := read_gpio_pin_mapping [0x25, 0x06, 0x02] PN532Gpio.P35 (by decide)
  exact (h.2.2.2.2.2.2.2.2.2.2.1).trans (by decide)

/-- Helper: bit 7 of the numeral `0x80`. -/
theorem testBit_128 (k : Nat) : Nat.testBit 128 k = decide (k = 7) := by
  have h : (128 : Nat) = 2 ^ 7 := by norm_num
  by_cases hk : k = 7
  · subst hk; rw [h, Nat.testBit_two_pow_self]; simp
  · rw [h, Nat.testBit_two_pow_of_ne (fun hh => hk hh.symm)]; simp [hk]

/-- Helper: the low eight bits of the mask `0xFF` are all set. -/
theorem testBit_255 (k : Nat) (hk : k < 8) : Nat.testBit 255 k = true := by
  have hb : ∀ j, j < 8 → Nat.testBit 255 j = true := by decide
  exact hb k hk

/-- Helper: `1 << off` has exactly the bit at `off` set. -/
theorem testBit_one_shiftLeft (off k : Nat) :
    Nat.testBit (1 <<< off) k = decide (k = off) := by
  rw [Nat.shiftLeft_eq, one_mul]
  by_cases hk : k = off
  · subst hk; rw [Nat.testBit_two_pow_self]; simp
  · rw [Nat.testBit_two_pow_of_ne (fun hh => hk hh.symm)]; simp [hk]

/-- Lines 578-582 of `write_gpio`: the byte stored into the parameter
array for the target pin's port.  The set branch is
`0x80 | response[idx] | (1 << offset) & 0xFF` and the clear branch is
`0x80 | response[idx] & !(1 << offset) & 0xFF` (Rust precedence: `&`
binds tighter than `|`; `!` on `u8` is `0xFF ^ ·`). -/
def gpioParamByte (cur off : Nat) (state : Bool) : Nat :=
  if state then 0x80 ||| cur ||| ((1 <<< off) &&& 0xFF)
  else 0x80 ||| (cur &&& (0xFF ^^^ (1 <<< off)) &&& 0xFF)

/-- Helper: the bits of the transmitted port byte — bit 7 (the apply
bit) is set, the bit at `off` equals the requested state, and every
other low bit copies the current port byte. -/
theorem gpioParamByte_testBit (cur off : Nat) (state : Bool) (k : Nat)
    (hk : k < 8) (hoff : off ≠ 7) :
    (gpioParamByte cur off state).testBit k =
      if k = 7 then true else if k = off then state else cur.testBit k := by
  cases state
  · simp only [gpioParamByte, Bool.false_eq_true, if_false,
      Nat.testBit_lor, Nat.testBit_land, Nat.testBit_xor,
      testBit_128, testBit_one_shiftLeft, testBit_255 k hk]
    by_cases h7 : k = 7
    · subst h7; simp [hoff]
    · by_cases hko : k = off
      · subst hko; simp [h7]
      · simp [h7, hko]
  · simp only [gpioParamByte, if_true,
      Nat.testBit_lor, Nat.testBit_land,
      testBit_128, testBit_one_shiftLeft, testBit_255 k hk]
    by_cases h7 : k = 7
    · subst h7; simp
    · by_cases hko : k = off
      · subst hko; simp [h7]
      · simp [h7, hko]

/-- Effect of a `write_gpio` invocation: the input-only no-op, or the
parameter bytes handed to the `WRITEGPIO` dispatch. -/
inductive GpioWrite where
  | noop
  | send (params : List Nat)
  deriving DecidableEq

/-- Lines 573-592, the single-pin branch of `write_gpio` (`p3` and `p7`
both `None`), as a function of the 3-byte GPIO state that line 577
obtains from `read_gpio(None)` (read first, before any write).  The
input-only pins I0/I1 return `Ok(())` without any transport call; other
pins build a 2-byte parameter array `[0x00, 0x00]` and store the
read-modify-write byte at `params[pin.idx()]`.  The two bounds checks
model the indexings `response[pin.idx()]` and `params[pin.idx()]`. -/
def write_gpio_single (gpioState : List Nat) (pin : PN532Gpio) (state : Bool) :
    RResult GpioWrite :=
  match pin with
  | .I0 | .I1 => .ok .noop
  | _ =>
    if gpioState.length ≤ pin.idx then .panic
    else if (2 : Nat) ≤ pin.idx then .panic
    else .ok (.send ([0x00, 0x00].set pin.idx
        (gpioParamByte (gpioState.getD pin.idx 0) pin.offset state)))

/-- Helper: for a driven pin and a 3-byte state, the single-pin write
reduces to sending the parameter array with the modified port byte. -/
theorem write_gpio_single_eq (gpioState : List Nat) (p : PN532Gpio) (state : Bool)
    (h3 : gpioState.length = 3) (hidx : p.idx ≤ 1) :
    write_gpio_single gpioState p state = .ok (.send ([0x00, 0x00].set p.idx
        (gpioParamByte (gpioState.getD p.idx 0) p.offset state))) := by
  cases p <;> simp_all [write_gpio_single, PN532Gpio.idx]

/-- C8: in single-pin `write_gpio` (both port vectors absent), on the
3-byte GPIO state read first, a driven pin transmits a 2-byte parameter
array whose byte for the target pin's port carries the apply bit `0x80`,
the target bit set or cleared as requested, and every other bit of that
port byte unchanged, while the other port's byte stays `0x00` (its
apply bit not set); the input-only pins I0 and I1 are a no-op. -/
theorem write_gpio_single_spec (gpioState : List Nat) (p : PN532Gpio) (state : Bool)
    (h3 : gpioState.length = 3) :
    (p ≠ PN532Gpio.I0 → p ≠ PN532Gpio.I1 →
      ∃ params, write_gpio_single gpioState p state = .ok (.send params)
        ∧ params.length = 2
        ∧ params.getD (1 - p.idx) 0 = 0
        ∧ (params.getD p.idx 0).testBit 7 = true
        ∧ (params.getD p.idx 0).testBit p.offset = state
        ∧ ∀ k, k < 8 → k ≠ 7 → k ≠ p.offset →
            (params.getD p.idx 0).testBit k = (gpioState.getD p.idx 0).testBit k)
    ∧ write_gpio_single gpioState PN532Gpio.I0 state = .ok .noop
    ∧ write_gpio_single gpioState PN532Gpio.I1 state = .ok .noop := by
  refine ⟨?_, rfl, rfl⟩
  intro hi0 hi1
  have hidx : p.idx ≤ 1 := by
    cases p
    case I0 => exact absurd rfl hi0
    case I1 => exact absurd rfl hi1
    all_goals simp [PN532Gpio.idx]
  have hoff7 : p.offset ≠ 7 := by cases p <;> simp [PN532Gpio.offset]
  have hoff8 : p.offset < 8 := by cases p <;> simp [PN532Gpio.offset]
  have hg : ∀ x : Nat, (([0x00, 0x00].set p.idx x).getD p.idx 0 = x)
      ∧ (([0x00, 0x00].set p.idx x).getD (1 - p.idx) 0 = 0)
      ∧ ([0x00, 0x00].set p.idx x).length = 2 := by
    intro x
    rcases (by omega : p.idx = 0 ∨ p.idx = 1) with h | h <;> simp [h]
  refine ⟨[0x00, 0x00].set p.idx
      (gpioParamByte (gpioState.getD p.idx 0) p.offset state),
    write_gpio_single_eq gpioState p state h3 hidx, (hg _).2.2, (hg _).2.1, ?_, ?_, ?_⟩
  · rw [(hg _).1, gpioParamByte_testBit _ _ _ _ (by omega) hoff7]
    simp
  · rw [(hg _).1, gpioParamByte_testBit _ _ _ _ hoff8 hoff7]
    simp [hoff7]
  · intro k hk h7 hoffk
    rw [(hg _).1, gpioParamByte_testBit _ _ _ _ hk hoff7]
    simp [h7, hoffk]

/-- C8 witness: clearing P72 on the state `[0x25, 0x06, 0x02]` transmits
`[0x00, 0x82]` — port 7's current byte `0x06` with bit 2 cleared and the
apply bit set, port 3's byte untouched at zero — by the theorem applied
at that state. -/
theorem write_gpio_single_spec_witness :
    ∃ params, write_gpio_single [0x25, 0x06, 0x02] PN532Gpio.P72 false =
        .ok (.send params)
      ∧ params.length = 2
      ∧ params.getD 0 0 = 0
      ∧ (params.getD 1 0).testBit 7 = true
      ∧ (params.getD 1 0).testBit 2 = false
      ∧ ∀ k, k < 8 → k ≠ 7 → k ≠ 2 →
          (params.getD 1 0).testBit k = (Nat.testBit 0x06 k) := by
  have h := write_gpio_single_spec [0x25, 0x06, 0x02] PN532Gpio.P72 false (by decide)
  exact h.1 (by decide) (by decide)

/-- Lines 391-405, the response handling of `read_passive_target`: a
`None` dispatch outcome means no card (`Ok(None)`); otherwise byte 0
must be `0x01` (exactly one target), the UID-length byte `res[5]` must
be at most 7, and the UID bytes `res[6..6+res[5]]` are returned.  The
bounds checks model the indexings `res[0]`, `res[5]` and the UID
slice. -/
def read_passive_target_handle (response : Option (List Nat)) :
    RResult (Option (List Nat)) :=
  match response with
  | none => .ok none
  | some res =>
    if res.length ≤ 0 then .panic
    else if res.getD 0 0 ≠ 0x01 then .error "More than one card detected!"
    else if res.length ≤ 5 then .panic
    else if 7 < res.getD 5 0 then .error "Found card with unexpectedly long UID!"
    else if res.length < 6 + res.getD 5 0 then .panic
    else .ok (some ((res.drop 6).take (res.getD 5 0)))

/-- Lines 384-406, `read_passive_target` in full: an
`INLISTPASSIVETARGET` call for one card at the selected baud through
the dispatch stage, followed by the UID extraction. -/
def read_passive_target (dev : Device) (card_baud : Option Nat) :
    RResult (Option (List Nat)) :=
  match dispatch dev COMMAND_INLISTPASSIVETARGET 19 with
  | .panic => .panic
  | .error e => .error e
  | .ok o => read_passive_target_handle o

/-- C4: on a received passive-target response, byte 0 different from 1
fails with the more-than-one-card error; byte 0 equal to 1 with a
UID-length byte above 7 fails with the UID-too-long error; byte 0 equal
to 1 with UID-length `n ≤ 7` returns exactly the `n` UID bytes at
positions `6..6+n`; and a `None` dispatch outcome returns `None`. -/
theorem read_passive_target_spec (res : List Nat) (h0 : 0 < res.length) :
    (res.getD 0 0 ≠ 1 →
      read_passive_target_handle (some res) = .error "More than one card detected!")
    ∧ (res.getD 0 0 = 1 → 5 < res.length → 7 < res.getD 5 0 →
      read_passive_target_handle (some res) =
        .error "Found card with unexpectedly long UID!")
    ∧ (res.getD 0 0 = 1 → 5 < res.length → res.getD 5 0 ≤ 7 →
        6 + res.getD 5 0 ≤ res.length →
      read_passive_target_handle (some res) =
        .ok (some ((res.drop 6).take (res.getD 5 0))))
    ∧ read_passive_target_handle none = .ok none := by
  refine ⟨?_, ?_, ?_, rfl⟩
  · intro hne
    simp only [read_passive_target_handle]
    rw [if_neg (by omega), if_pos hne]
  · intro h1 h5 h7
    simp only [read_passive_target_handle]
    rw [if_neg (by omega), if_neg (fun hh => hh h1), if_neg (by omega), if_pos h7]
  · intro h1 h5 h7 h6
    simp only [read_passive_target_handle]
    rw [if_neg (by omega), if_neg (fun hh => hh h1), if_neg (by omega),
      if_neg (by omega), if_neg (by omega)]

/-- C4 witness: a response carrying one target with a 4-byte UID
`[9, 8, 7, 6]` at positions 6..10 returns exactly those bytes, by the
theorem applied at that response. -/
theorem read_passive_target_spec_witness :
    read_passive_target_handle (some [1, 0, 0, 0, 0, 4, 9, 8, 7, 6]) =
      .ok (some [9, 8, 7, 6]) := by
  have h := read_passive_target_spec [1, 0, 0, 0, 0, 4, 9, 8, 7, 6] (by decide)
  exact (h.2.2.1 (by decide) (by decide) (by decide) (by decide)).trans (by decide)

/-- Lines 441-462, the response handling of `mifare_classic_read_block`:
a `None` dispatch outcome (timeout) returns `Ok(vec![])` — an empty
success, not a distinct no-response value; otherwise a non-zero status
byte `res[0]` is mapped through `PN532Error::error` and returned as an
error, and a zero status returns `res[1..]`. -/
def mifare_classic_read_block_handle (response : Option (List Nat)) :
    RResult (List Nat) :=
  match response with
  | none => .ok []
  | some res =>
    if res.length ≤ 0 then .panic
    else if res.getD 0 0 ≠ 0x00 then
      match PN532Error.error (res.getD 0 0) with
      | .panic => .panic
      | .error e => .error e
      | .ok err => .error err.msg
    else .ok (res.drop 1)

/-- Lines 441-462, `mifare_classic_read_block` in full: an
`INDATAEXCHANGE` read of one block through the dispatch stage, followed
by the status-byte handling. -/
def mifare_classic_read_block (dev : Device) (block_number : Nat) :
    RResult (List Nat) :=
  match dispatch dev COMMAND_INDATAEXCHANGE 17 with
  | .panic => .panic
  | .error e => .error e
  | .ok o => mifare_classic_read_block_handle o

/-- Lines 506-509, `ntag2xx_read_block`: delegate to
`mifare_classic_read_block` and slice the first 4 bytes of its result
(`res[..4]`, a panic when fewer than 4 bytes are present). -/
def ntag2xx_read_block_handle (response : Option (List Nat)) : RResult (List Nat) :=
  match mifare_classic_read_block_handle response with
  | .ok res => if res.length < 4 then .panic else .ok (res.take 4)
  | .error e => .error e
  | .panic => .panic

/-- C10: when the dispatch yields no response (a ready-wait timeout),
`mifare_classic_read_block` returns success with an empty byte vector
rather than a distinct no-response value, and `ntag2xx_read_block`,
which slices the first 4 bytes of that result, panics on every such
timeout. -/
theorem ntag_read_timeout_panics :
    mifare_classic_read_block_handle none = .ok []
    ∧ ntag2xx_read_block_handle none = RResult.panic
    ∧ mifare_classic_read_block ⟨false, false, [], []⟩ 4 = .ok [] := by
  refine ⟨rfl, rfl, rfl⟩
